import Mathlib

/-!
WeatherApp synchronization engine — shallow embedding.

Embedding of the resilient data-synchronization engine of
`src/App.js` (EnterpriseWeatherApp):

* payload validation (`validateWeatherData`, lines 342-344) over raw JS
  values with JS truthiness;
* the success path of `fetchWeatherData` (lines 245-263): extract the
  weather object, validate, update state / history / cache;
* the failure path `handleWeatherError` (lines 297-326): retry counter,
  exponential backoff, exhaustion fallback to the cache;
* cache reads `getCachedWeather` (lines 329-339);
* the bounded history ledger `updateWeatherHistory` (lines 347-371);
* the alert evaluator `checkWeatherAlerts` (lines 374-401);
* the manual-refresh guard `refreshWeather` (lines 463-468).

JS numbers are modelled as rationals (`Rat`); epoch-millisecond instants
as `Int`; `undefined`/missing fields as `Option`.
-/

namespace WeatherApp

/-! ## Configuration constants (`config`, lines 42-50, and `maxRetries`, line 39) -/

def maxRetries : Nat := 3

def OFFLINE_RETENTION : Int := 24 * 60 * 60 * 1000

def MAX_HISTORY_ENTRIES : Nat := 100

/-! ## Raw JS values and payload validation

`validateWeatherData` receives the parsed JSON response and tests
`!!(data?.main?.temp && data?.weather?.[0]?.main && data?.name)`.
We model the JS primitive values the validator can see, JS truthiness
on them, and a record of the three payload fields the engine reads
(`main.temp`, `weather[0].main`, `name`); a missing field (or a missing
intermediate object, which optional chaining also turns into
`undefined`) is `none`. -/

inductive JsValue where
  | num (q : Rat)
  | str (s : String)
  | boolean (b : Bool)
  | null
deriving DecidableEq

/-- JS truthiness of a primitive value: `0`, `""`, `false` and `null`
are falsy, everything else is truthy. -/
def truthy : JsValue → Bool
  | .num q => !(q == 0)
  | .str s => !(s == "")
  | .boolean b => b
  | .null => false

/-- Truthiness of a possibly-`undefined` value. -/
def jsTruthy : Option JsValue → Bool
  | some v => truthy v
  | none => false

/-- The fields of a response payload that the engine dereferences:
`main.temp`, `weather[0].main` and `name`. -/
structure RawPayload where
  mainTemp : Option JsValue
  weather0Main : Option JsValue
  name : Option JsValue
deriving DecidableEq

/-- Source `validateWeatherData` (App.js lines 342-344):
`!!(data?.main?.temp && data?.weather?.[0]?.main && data?.name)`.
The argument may itself be `undefined` (e.g. first element of an empty
array response). -/
def validateWeatherData : Option RawPayload → Bool
  | some p => jsTruthy p.mainTemp && jsTruthy p.weather0Main && jsTruthy p.name
  | none => false

/-- Acceptance criterion as the spec words it: the payload "must contain
at least `main.temp` (number), `weather[0].main` (string), and `name`
(string) to be accepted". Written from the spec, for comparison with
`validateWeatherData`. -/
def specValidPayload : Option RawPayload → Bool
  | some p =>
      (match p.mainTemp with | some (.num _) => true | _ => false)
      && (match p.weather0Main with | some (.str _) => true | _ => false)
      && (match p.name with | some (.str _) => true | _ => false)
  | none => false

/-! ## Success path of `fetchWeatherData` (lines 245-263)

`const weatherObj = Array.isArray(weatherData) ? weatherData[0] : weatherData;`
then `if (!validateWeatherData(weatherObj)) throw ...` — on the throw the
catch block runs `handleWeatherError`, which never touches the cache or
the history; on success the state is updated and `updateWeatherHistory`
both prepends the history entry and writes the cache record. -/

/-- A history entry as built by `updateWeatherHistory` from the raw
payload fields (lines 349-354). -/
structure RawHistoryEntry where
  timestamp : Int
  temperature : Option JsValue
  condition : Option JsValue
  location : Option JsValue
deriving DecidableEq

def mkRawHistoryEntry (p : RawPayload) (now : Int) : RawHistoryEntry :=
  { timestamp := now, temperature := p.mainTemp, condition := p.weather0Main,
    location := p.name }

/-- Source `updateWeatherHistory` on the ledger:
`[newEntry, ...prev].slice(0, config.MAX_HISTORY_ENTRIES)` (line 356). -/
def updateRawHistory (p : RawPayload) (now : Int) (prev : List RawHistoryEntry) :
    List RawHistoryEntry :=
  (mkRawHistoryEntry p now :: prev).take MAX_HISTORY_ENTRIES

/-- The engine state touched by the ingestion path: current weather,
history ledger, and the `weather_cache` record `{timestamp, data}`. -/
structure RawSyncState where
  weather : Option RawPayload
  history : List RawHistoryEntry
  cache : Option (Int × RawPayload)
deriving DecidableEq

/-- The response body: a single weather object or an array whose first
element is used (line 246). -/
def extractWeatherObj : List RawPayload ⊕ RawPayload → Option RawPayload
  | .inl arr => arr.head?
  | .inr p => some p

/-- Ingestion of a parsed response body (lines 245-263): extract the
weather object, validate it; on success set the current weather, update
the history and write the cache record; on failure throw (the `Bool`
result records acceptance) leaving weather, history and cache untouched. -/
def ingestResponse (body : List RawPayload ⊕ RawPayload) (now : Int)
    (st : RawSyncState) : RawSyncState × Bool :=
  match extractWeatherObj body with
  | some p =>
      if validateWeatherData (some p) then
        ({ weather := some p,
           history := updateRawHistory p now st.history,
           cache := some (now, p) }, true)
      else (st, false)
  | none => (st, false)

/-! ## Validated snapshots and the alert evaluator (lines 374-401)

After validation the evaluator reads `main.temp`, `wind?.speed || 0`,
`main.humidity` and `main.pressure`. For valid snapshots the numeric
fields are numbers; humidity, pressure and wind speed may be absent
(`undefined`), and a JS comparison against `undefined` is false, so an
absent humidity or pressure emits no alert. -/

structure Snapshot where
  temp : Rat
  humidity : Option Rat
  pressure : Option Rat
  windSpeed : Option Rat
  condition : String
  name : String
deriving DecidableEq

structure MinMax where
  min : Rat
  max : Rat
deriving DecidableEq

/-- Shape of `alertThresholds` (lines 24-29). -/
structure AlertThresholds where
  temperature : MinMax
  windSpeed : Rat
  humidity : Rat
  pressure : MinMax
deriving DecidableEq

/-- Initial thresholds (lines 24-29). -/
def defaultThresholds : AlertThresholds :=
  { temperature := { min := -10, max := 40 }, windSpeed := 15, humidity := 80,
    pressure := { min := 980, max := 1030 } }

inductive AlertType where
  | cold | heat | wind | humidity | pressure
deriving DecidableEq

structure AlertEvent where
  type : AlertType
  message : String
deriving DecidableEq

/-- JS `Math.round`: round half toward positive infinity. -/
def jsRound (q : Rat) : Int := ⌊q + 1 / 2⌋

/-- The `temp < alertThresholds.temperature.min` check (lines 381-383). -/
def coldAlerts (w : Snapshot) (t : AlertThresholds) : List AlertEvent :=
  if w.temp < t.temperature.min then
    [{ type := .cold, message := "Extreme cold: " ++ toString (jsRound w.temp) ++ "°C" }]
  else []

/-- The `temp > alertThresholds.temperature.max` check (lines 384-386). -/
def heatAlerts (w : Snapshot) (t : AlertThresholds) : List AlertEvent :=
  if w.temp > t.temperature.max then
    [{ type := .heat, message := "Extreme heat: " ++ toString (jsRound w.temp) ++ "°C" }]
  else []

/-- The `windSpeed > alertThresholds.windSpeed` check with
`windSpeed = weatherData.wind?.speed || 0` (lines 377, 387-389). -/
def windAlerts (w : Snapshot) (t : AlertThresholds) : List AlertEvent :=
  let windSpeed := w.windSpeed.getD 0
  if windSpeed > t.windSpeed then
    [{ type := .wind, message := "High winds: " ++ toString windSpeed ++ " m/s" }]
  else []

/-- The `humidity > alertThresholds.humidity` check (lines 390-392); an
absent humidity compares false in JS and emits nothing. -/
def humidityAlerts (w : Snapshot) (t : AlertThresholds) : List AlertEvent :=
  match w.humidity with
  | some h =>
      if h > t.humidity then
        [{ type := .humidity, message := "High humidity: " ++ toString h ++ "%" }]
      else []
  | none => []

/-- The `pressure < min || pressure > max` check (lines 393-395); an absent
pressure compares false in JS and emits nothing. -/
def pressureAlerts (w : Snapshot) (t : AlertThresholds) : List AlertEvent :=
  match w.pressure with
  | some p =>
      if p < t.pressure.min ∨ p > t.pressure.max then
        [{ type := .pressure, message := "Abnormal pressure: " ++ toString p ++ " hPa" }]
      else []
  | none => []

/-- Source `checkWeatherAlerts` (lines 374-401): the five checks push onto
`alerts` in source order cold, heat, wind, humidity, pressure. -/
def checkWeatherAlerts (w : Snapshot) (t : AlertThresholds) : List AlertEvent :=
  coldAlerts w t ++ heatAlerts w t ++ windAlerts w t ++ humidityAlerts w t
    ++ pressureAlerts w t

/-! ## Cache reads (`getCachedWeather`, lines 329-339)

`JSON.parse(localStorage.getItem('weather_cache') || '{}')` yields either
the stored `{timestamp, data}` record or an object without those fields
(modelled `none`; a parse/storage failure is caught and also yields
`null`). The guard is
`if (cached.timestamp && Date.now() - cached.timestamp < config.OFFLINE_RETENTION)`
— a truthiness test on the timestamp followed by a strict comparison. -/

structure CacheRecord where
  timestamp : Int
  data : Snapshot
deriving DecidableEq

def getCachedWeather (cache : Option CacheRecord) (now : Int) : Option Snapshot :=
  match cache with
  | some r =>
      if r.timestamp ≠ 0 ∧ now - r.timestamp < OFFLINE_RETENTION then some r.data
      else none
  | none => none

/-! ## Failure path (`handleWeatherError`, lines 297-326)

On every fetch failure the retry counter is incremented first; while the
incremented counter is `< maxRetries` a re-attempt is scheduled after
`Math.pow(2, retryCountRef.current) * 1000` ms; otherwise the cycle is
exhausted: a live cached snapshot is surfaced with the degraded message,
or the unavailable-service error is set, and the counter resets to 0. -/

/-- The user-facing error slot (`error` state). The source stores
strings; the constructors stand for `''`,
`'Using cached data - connection issues detected'` and
`'Weather service unavailable: ' + error.message`. -/
inductive UserError where
  | noError
  | usingCachedData
  | serviceUnavailable (msg : String)
deriving DecidableEq

/-- The exact message text each `UserError` stands for (lines 319, 322). -/
def errorMessage : UserError → String
  | .noError => ""
  | .usingCachedData => "Using cached data - connection issues detected"
  | .serviceUnavailable m => "Weather service unavailable: " ++ m

/-- Controller state touched by `handleWeatherError`: the current
weather, the error slot and `retryCountRef.current`. -/
structure CtrlState where
  weather : Option Snapshot
  error : UserError
  retryCount : Nat
deriving DecidableEq

/-- What `handleWeatherError` does besides mutating state: schedule a
backoff re-fetch after the given delay (line 309), or end the cycle. -/
inductive ErrorAction where
  | retryAfter (delayMs : Nat)
  | exhausted
deriving DecidableEq

/-- Source `handleWeatherError` (lines 297-326). `cached` is the result of
`getCachedWeather()` at the time of the call; `msg` is `error.message`. -/
def handleWeatherError (msg : String) (cached : Option Snapshot)
    (st : CtrlState) : CtrlState × ErrorAction :=
  let count := st.retryCount + 1
  if count < maxRetries then
    ({ st with retryCount := count }, .retryAfter (2 ^ count * 1000))
  else
    match cached with
    | some s =>
        ({ weather := some s, error := .usingCachedData, retryCount := 0 },
         .exhausted)
    | none =>
        ({ st with error := .serviceUnavailable msg, retryCount := 0 },
         .exhausted)

/-- Run `n` consecutive transport failures from `st`, collecting the
action taken at each failure. -/
def consecutiveFailures (msg : String) (cached : Option Snapshot) :
    Nat → CtrlState → List ErrorAction
  | 0, _ => []
  | n + 1, st =>
      let r := handleWeatherError msg cached st
      r.2 :: consecutiveFailures msg cached n r.1

/-! ## History ledger over validated snapshots (lines 347-371) -/

structure HistoryEntry where
  timestamp : Int
  temperature : Rat
  condition : String
  location : String
deriving DecidableEq

def mkHistoryEntry (w : Snapshot) (now : Int) : HistoryEntry :=
  { timestamp := now, temperature := w.temp, condition := w.condition,
    location := w.name }

/-- Source `updateWeatherHistory` on the ledger (lines 349-356):
`[newEntry, ...prev].slice(0, config.MAX_HISTORY_ENTRIES)`. -/
def updateWeatherHistory (w : Snapshot) (now : Int)
    (prev : List HistoryEntry) : List HistoryEntry :=
  (mkHistoryEntry w now :: prev).take MAX_HISTORY_ENTRIES

/-- Insert a sequence of snapshots (oldest first, each with its capture
instant) into the ledger in order. -/
def insertAll (items : List (Snapshot × Int)) (init : List HistoryEntry) :
    List HistoryEntry :=
  items.foldl (fun acc it => updateWeatherHistory it.1 it.2 acc) init

/-! ## Manual refresh guard (`refreshWeather`, lines 463-468)

`if (location.lat && location.lon && !isRefreshing && isOnline)` the
controller calls `fetchWeatherData(lat, lon)`, which (manual call, so
`isAutoRefresh` is false) sets `isRefreshing` to true and increments
`apiCallCount` immediately before invoking the transport; otherwise the
request is dropped. -/

structure UIState where
  hasLocation : Bool
  isRefreshing : Bool
  isOnline : Bool
  apiCallCount : Nat
deriving DecidableEq

/-- The synchronous prefix of a manual `fetchWeatherData` call
(lines 209-217): mark the cycle in flight and count the transport
invocation. -/
def beginManualFetch (s : UIState) : UIState :=
  { s with isRefreshing := true, apiCallCount := s.apiCallCount + 1 }

/-- Source `refreshWeather` (lines 463-468). -/
def refreshWeather (s : UIState) : UIState :=
  if s.hasLocation ∧ ¬s.isRefreshing ∧ s.isOnline then beginManualFetch s
  else s

/-! ## Concrete values used in scenarios and witnesses -/

/-- A generic valid snapshot, all readings within the default thresholds. -/
def sampleSnapshot : Snapshot :=
  { temp := 21, humidity := some 40, pressure := some 1005, windSpeed := some 3,
    condition := "Clouds", name := "Sampleton" }

/-- The spec scenario snapshot: 45°C, every other reading within its
default threshold. -/
def heatScenarioSnapshot : Snapshot :=
  { temp := 45, humidity := some 50, pressure := some 1000, windSpeed := some 5,
    condition := "Clear", name := "Testville" }

/-- A valid snapshot with every optional reading absent. -/
def noOptionalsSnapshot : Snapshot :=
  { temp := 10, humidity := none, pressure := none, windSpeed := none,
    condition := "Clear", name := "Barefield" }

/-- A well-typed payload reporting a temperature of exactly 0°C. -/
def zeroTempPayload : RawPayload :=
  { mainTemp := some (.num 0), weather0Main := some (.str "Clear"),
    name := some (.str "Oslo") }

/-- A well-typed payload whose location name is the empty string. -/
def emptyNamePayload : RawPayload :=
  { mainTemp := some (.num 21), weather0Main := some (.str "Clouds"),
    name := some (.str "") }

/-! ## Helper lemmas -/

theorem jsRound_fortyfive : jsRound 45 = 45 := by norm_num [jsRound]

theorem take_append_take {α : Type} (n : Nat) (A B : List α) :
    (A ++ B.take n).take n = (A ++ B).take n := by
  rw [List.take_append_eq_append_take, List.take_append_eq_append_take,
    List.take_take, Nat.min_eq_left (Nat.sub_le n A.length)]

/-- Folding insertions over a ledger already within capacity keeps the
most recent `MAX_HISTORY_ENTRIES` entries, newest first. -/
theorem insertAll_eq_take (items : List (Snapshot × Int)) :
    ∀ init : List HistoryEntry, init.length ≤ MAX_HISTORY_ENTRIES →
      insertAll items init
        = ((items.map fun it => mkHistoryEntry it.1 it.2).reverse ++ init).take
            MAX_HISTORY_ENTRIES := by
  induction items with
  | nil =>
      intro init h
      simp [insertAll, List.take_of_length_le h]
  | cons it its ih =>
      intro init h
      have h2 : (updateWeatherHistory it.1 it.2 init).length ≤ MAX_HISTORY_ENTRIES := by
        simp [updateWeatherHistory]
      have step : insertAll (it :: its) init
          = insertAll its (updateWeatherHistory it.1 it.2 init) := rfl
      rw [step, ih _ h2, updateWeatherHistory, take_append_take]
      simp [List.append_assoc]

/-! ## Claim theorems -/

/-- Claim C1, counterexample: a cycle of consecutive transport failures
starting at retry count 0 schedules backoff retries of 2000ms and 4000ms
only, and the third failure exhausts the cycle — no 8000ms retry is ever
scheduled, refuting "three consecutive backoff retries with delays of
exactly 2000ms, 4000ms and 8000ms". -/
theorem backoff_only_two_retries :
    consecutiveFailures "network error" none 3
        { weather := none, error := .noError, retryCount := 0 }
      = [.retryAfter 2000, .retryAfter 4000, .exhausted]
    ∧ ErrorAction.retryAfter 8000 ∉
        consecutiveFailures "network error" none 3
          { weather := none, error := .noError, retryCount := 0 } := by
  decide

/-- Claim C1, amended: in a cycle whose transport fails repeatedly, the
controller schedules exactly two backoff retries, after 2000ms and
4000ms (computed as `2^count * 1000` after incrementing the counter),
and the cycle moves to Exhausted on the third failure — exactly when
the incremented retry counter reaches `maxRetries` (3). -/
theorem backoff_two_then_exhausted (msg : String) (cached : Option Snapshot)
    (st : CtrlState) (h : st.retryCount = 0) :
    consecutiveFailures msg cached 3 st
      = [.retryAfter 2000, .retryAfter 4000, .exhausted]
    ∧ (∀ st' : CtrlState,
        (handleWeatherError msg cached st').2 = .exhausted ↔
          maxRetries ≤ st'.retryCount + 1) := by
  constructor
  · cases cached <;>
      simp [consecutiveFailures, handleWeatherError, maxRetries, h]
  · intro st'
    rcases Nat.lt_or_ge (st'.retryCount + 1) maxRetries with hlt | hge
    · cases cached <;> simp [handleWeatherError, hlt, Nat.not_le.mpr hlt]
    · cases cached <;> simp [handleWeatherError, Nat.not_lt.mpr hge, hge]

/-- Witness for `backoff_two_then_exhausted` at a concrete start state. -/
theorem backoff_two_then_exhausted_witness :
    consecutiveFailures "boom" none 3
        { weather := none, error := .noError, retryCount := 0 }
      = [.retryAfter 2000, .retryAfter 4000, .exhausted] :=
  (backoff_two_then_exhausted "boom" none
    { weather := none, error := .noError, retryCount := 0 } rfl).1

/-- Claim C4: when a failure exhausts the retries, the cycle ends and
the retry counter resets to 0; if the cache yields a live snapshot it
becomes the current reading with the degraded-mode message and never
the unavailable-service error; if the cache read is absent, the
unavailable-service error is surfaced and the weather is left unset. -/
theorem exhaustion_cache_fallback (msg : String) (cache : Option CacheRecord)
    (now : Int) (st : CtrlState) (h : ¬ st.retryCount + 1 < maxRetries) :
    (handleWeatherError msg (getCachedWeather cache now) st).2 = .exhausted
    ∧ (handleWeatherError msg (getCachedWeather cache now) st).1.retryCount = 0
    ∧ (∀ s, getCachedWeather cache now = some s →
        (handleWeatherError msg (getCachedWeather cache now) st).1.weather = some s
        ∧ (handleWeatherError msg (getCachedWeather cache now) st).1.error
            = .usingCachedData
        ∧ ∀ m, (handleWeatherError msg (getCachedWeather cache now) st).1.error
            ≠ .serviceUnavailable m)
    ∧ (getCachedWeather cache now = none →
        (handleWeatherError msg (getCachedWeather cache now) st).1.error
            = .serviceUnavailable msg
        ∧ (handleWeatherError msg (getCachedWeather cache now) st).1.weather
            = st.weather) := by
  rcases hgc : getCachedWeather cache now with _ | s <;>
    simp [handleWeatherError, h]

/-- Witness for `exhaustion_cache_fallback`: a live cache record is
surfaced with the degraded-mode message. -/
theorem exhaustion_cache_fallback_witness :
    (handleWeatherError "boom"
        (getCachedWeather (some { timestamp := 1, data := sampleSnapshot }) 100)
        { weather := none, error := .noError, retryCount := 2 }).1.error
      = .usingCachedData :=
  ((exhaustion_cache_fallback "boom" (some { timestamp := 1, data := sampleSnapshot })
      100 { weather := none, error := .noError, retryCount := 2 }
      (by decide)).2.2.1 sampleSnapshot (by decide)).2.1

/-- Claim C3, counterexample: at exactly the 24-hour boundary
(`now - storedAt = OFFLINE_RETENTION`) the cache read returns absent,
refuting the claimed inclusive boundary `now - storedAt ≤ OFFLINE_RETENTION`. -/
theorem cache_boundary_returns_absent :
    getCachedWeather (some { timestamp := 1, data := sampleSnapshot })
        (1 + OFFLINE_RETENTION) = none
    ∧ (1 + OFFLINE_RETENTION) - 1 ≤ OFFLINE_RETENTION := by
  constructor
  · simp [getCachedWeather, OFFLINE_RETENTION]
  · simp

/-- Claim C3, amended: a cache read returns the stored snapshot iff the
stored timestamp is truthy and `now - storedAt < OFFLINE_RETENTION`
(strict, so the exact 24-hour boundary is treated exclusively and
returns absent); an absent record reads as absent. -/
theorem cache_read_strictly_fresh (r : CacheRecord) (now : Int) :
    (getCachedWeather (some r) now = some r.data
      ↔ r.timestamp ≠ 0 ∧ now - r.timestamp < OFFLINE_RETENTION)
    ∧ (getCachedWeather (some r) now = none
      ↔ ¬(r.timestamp ≠ 0 ∧ now - r.timestamp < OFFLINE_RETENTION))
    ∧ getCachedWeather none now = none := by
  by_cases hc : r.timestamp ≠ 0 ∧ now - r.timestamp < OFFLINE_RETENTION <;>
    simp [getCachedWeather, hc]

/-- Witness for `cache_read_strictly_fresh` at a fresh record. -/
theorem cache_read_strictly_fresh_witness :
    getCachedWeather (some { timestamp := 1, data := sampleSnapshot }) 100
      = some sampleSnapshot :=
  (cache_read_strictly_fresh { timestamp := 1, data := sampleSnapshot } 100).1.mpr
    (by constructor <;> decide)

/-- Claim C5: the history ledger never exceeds `MAX_HISTORY_ENTRIES`
(100) entries; each append puts the new entry at the front; inserting a
sequence of snapshots into an empty ledger leaves exactly the most
recently inserted entries, newest first, and once more than 100 have
been inserted the length is exactly 100 (the oldest evicted). -/
theorem history_bounded_newest_first :
    (∀ w now prev, (updateWeatherHistory w now prev).length ≤ MAX_HISTORY_ENTRIES)
    ∧ (∀ w now prev,
        (updateWeatherHistory w now prev).head? = some (mkHistoryEntry w now))
    ∧ (∀ items : List (Snapshot × Int),
        insertAll items []
          = ((items.map fun it => mkHistoryEntry it.1 it.2).reverse).take
              MAX_HISTORY_ENTRIES)
    ∧ (∀ items : List (Snapshot × Int), MAX_HISTORY_ENTRIES < items.length →
        (insertAll items []).length = MAX_HISTORY_ENTRIES) := by
  have key := insertAll_eq_take
  refine ⟨?_, ?_, ?_, ?_⟩
  · intro w now prev; simp [updateWeatherHistory]
  · intro w now prev; simp [updateWeatherHistory, List.head?_take, MAX_HISTORY_ENTRIES]
  · intro items
    simpa using key items [] (by simp)
  · intro items hlen
    rw [key items [] (by simp)]
    simp [List.length_take]
    omega

/-- Witness for `history_bounded_newest_first`: 101 insertions leave
exactly 100 entries. -/
theorem history_bounded_newest_first_witness :
    (insertAll (List.replicate 101 (sampleSnapshot, (0 : Int))) []).length
      = MAX_HISTORY_ENTRIES :=
  history_bounded_newest_first.2.2.2 (List.replicate 101 (sampleSnapshot, (0 : Int)))
    (by simp [MAX_HISTORY_ENTRIES])

/-- Claim C6: a snapshot at 45°C against the default thresholds
(temperature max 40, all other readings in range) produces exactly one
alert, of kind heat, whose message contains "45"; and in general the
evaluator is the five checks in the fixed order cold, heat, wind,
humidity, pressure. -/
theorem heat_scenario_single_alert :
    checkWeatherAlerts heatScenarioSnapshot defaultThresholds
      = [{ type := .heat, message := "Extreme heat: 45°C" }]
    ∧ (∃ pre post : String, "Extreme heat: 45°C" = pre ++ "45" ++ post)
    ∧ ∀ w t, checkWeatherAlerts w t
        = coldAlerts w t ++ heatAlerts w t ++ windAlerts w t ++ humidityAlerts w t
            ++ pressureAlerts w t := by
  refine ⟨?_, ⟨"Extreme heat: ", "°C", by decide⟩, fun w t => rfl⟩
  norm_num [checkWeatherAlerts, coldAlerts, heatAlerts, windAlerts, humidityAlerts,
    pressureAlerts, heatScenarioSnapshot, defaultThresholds, jsRound_fortyfive]
  decide

/-- Claim C7: a manual refresh while a fetch is in flight (or while
offline) is a dropped no-op, so two successive manual-refresh calls
from an idle online state invoke the transport exactly once. -/
theorem manual_refresh_exclusive (s : UIState) :
    (s.isRefreshing = true → refreshWeather s = s)
    ∧ (s.isOnline = false → refreshWeather s = s)
    ∧ (s.hasLocation = true → s.isRefreshing = false → s.isOnline = true →
        refreshWeather (refreshWeather s) = beginManualFetch s
        ∧ (refreshWeather (refreshWeather s)).apiCallCount = s.apiCallCount + 1) := by
  refine ⟨fun h => by simp [refreshWeather, h], fun h => by simp [refreshWeather, h], ?_⟩
  intro h1 h2 h3
  have hfirst : refreshWeather s = beginManualFetch s := by
    simp [refreshWeather, h1, h2, h3]
  rw [hfirst]
  constructor
  · simp [refreshWeather, beginManualFetch]
  · simp [refreshWeather, beginManualFetch]

/-- Witness for `manual_refresh_exclusive`: two back-to-back refreshes
from the idle online state count one transport call. -/
theorem manual_refresh_exclusive_witness :
    (refreshWeather (refreshWeather
        { hasLocation := true, isRefreshing := false, isOnline := true,
          apiCallCount := 0 })).apiCallCount = 0 + 1 :=
  ((manual_refresh_exclusive
      { hasLocation := true, isRefreshing := false, isOnline := true,
        apiCallCount := 0 }).2.2 rfl rfl rfl).2

/-- Claim C8: alert evaluation is total on every snapshot; an absent
wind speed behaves exactly like a wind speed of 0, and an absent
humidity or pressure makes its check emit no alert instead of failing. -/
theorem alerts_total_on_missing_fields (w : Snapshot) (t : AlertThresholds) :
    (w.windSpeed = none →
      checkWeatherAlerts w t = checkWeatherAlerts { w with windSpeed := some 0 } t)
    ∧ (w.humidity = none → humidityAlerts w t = [])
    ∧ (w.pressure = none → pressureAlerts w t = []) := by
  refine ⟨fun h => ?_, fun h => by simp [humidityAlerts, h],
    fun h => by simp [pressureAlerts, h]⟩
  simp [checkWeatherAlerts, coldAlerts, heatAlerts, windAlerts, humidityAlerts,
    pressureAlerts, h]

/-- Witness for `alerts_total_on_missing_fields` on a snapshot with all
optional readings absent. -/
theorem alerts_total_on_missing_fields_witness :
    humidityAlerts noOptionalsSnapshot defaultThresholds = []
    ∧ pressureAlerts noOptionalsSnapshot defaultThresholds = []
    ∧ checkWeatherAlerts noOptionalsSnapshot defaultThresholds
        = checkWeatherAlerts { noOptionalsSnapshot with windSpeed := some 0 }
            defaultThresholds :=
  ⟨(alerts_total_on_missing_fields noOptionalsSnapshot defaultThresholds).2.1 rfl,
   (alerts_total_on_missing_fields noOptionalsSnapshot defaultThresholds).2.2 rfl,
   (alerts_total_on_missing_fields noOptionalsSnapshot defaultThresholds).1 rfl⟩

/-- Claim C9: alert evaluation is deterministic and order-stable — equal
snapshot and threshold inputs always produce the same alert sequence
(the embedding is a pure function of the two inputs, which it only
reads). -/
theorem evaluate_deterministic (w w' : Snapshot) (t t' : AlertThresholds)
    (hw : w = w') (ht : t = t') :
    checkWeatherAlerts w t = checkWeatherAlerts w' t' := by rw [hw, ht]

/-- Witness for `evaluate_deterministic` at concrete inputs. -/
theorem evaluate_deterministic_witness :
    checkWeatherAlerts sampleSnapshot defaultThresholds
      = checkWeatherAlerts sampleSnapshot defaultThresholds :=
  evaluate_deterministic sampleSnapshot sampleSnapshot defaultThresholds
    defaultThresholds rfl rfl

/-- Claim C2, failing input: the payload with `main.temp = 0`,
`weather[0].main = "Clear"` and `name = "Oslo"` satisfies the spec's
acceptance criterion (all three fields present and well-typed) yet
`validateWeatherData` rejects it — `0` is falsy — so ingestion throws
and neither the cache nor the history is written. -/
theorem zero_temp_payload_rejected :
    validateWeatherData (some zeroTempPayload) = false
    ∧ specValidPayload (some zeroTempPayload) = true
    ∧ ∀ (now : Int) (st : RawSyncState),
        ingestResponse (.inr zeroTempPayload) now st = (st, false) := by
  refine ⟨by decide, by decide, fun now st => ?_⟩
  simp [ingestResponse, extractWeatherObj,
    show validateWeatherData (some zeroTempPayload) = false from by decide]

/-- Claim C10: because validation tests truthiness, every payload whose
`main.temp` is the number 0 or whose `name` is the empty string is
rejected, and ingesting it leaves the weather state, the cache and the
history ledger unchanged. -/
theorem truthiness_rejects_zero_and_empty (p : RawPayload)
    (h : p.mainTemp = some (.num 0) ∨ p.name = some (.str "")) :
    validateWeatherData (some p) = false
    ∧ ∀ (now : Int) (st : RawSyncState),
        ingestResponse (.inr p) now st = (st, false) := by
  have hv : validateWeatherData (some p) = false := by
    rcases h with h | h <;> simp [validateWeatherData, jsTruthy, h, truthy]
  exact ⟨hv, fun now st => by simp [ingestResponse, extractWeatherObj, hv]⟩

/-- Witness for `truthiness_rejects_zero_and_empty` at the empty-name
payload. -/
theorem truthiness_rejects_zero_and_empty_witness :
    validateWeatherData (some emptyNamePayload) = false
    ∧ ingestResponse (.inr emptyNamePayload) 7
        { weather := none, history := [], cache := none }
      = ({ weather := none, history := [], cache := none }, false) :=
  ⟨(truthiness_rejects_zero_and_empty emptyNamePayload (Or.inr rfl)).1,
   (truthiness_rejects_zero_and_empty emptyNamePayload (Or.inr rfl)).2 7 _⟩

end WeatherApp
